import Mathlib

/-!
Verification of the youtube-download pipeline (`src/youtube_download.py`).

The Python source is shallowly embedded: every outbound HTTP interaction is
modelled by an oracle field of an `Env` record (one value per call site, since
each pipeline run performs each call a bounded number of times, except polling,
which gets a `Nat`-indexed oracle).  A call that the Python code lets raise
(`response.raise_for_status()` in `post_call`, `KeyError` on dictionary
indexing) is modelled by the oracle returning `Except.error`; the embedding
propagates the error exactly where the source has no `try`.  Functions also
return the list of service calls they performed (`CallEvent`) and the updated
file system, so that "issues zero task-creation calls" or "no write to the
destination path" are provable statements.
-/

set_option autoImplicit false

namespace YTDL

/-- A Python exception escaping a pipeline function: an HTTP error raised by
`response.raise_for_status()` (carrying the status code), or a `KeyError`
raised by dictionary indexing in the result-printing block. -/
inductive PyExn where
  | httpError (status : Nat)
  | keyError (key : String)
  deriving Repr, DecidableEq

/-- The response to a plain GET (`requests.get`): status code and raw body. -/
structure HttpResponse where
  status_code : Nat
  content : List Nat
  deriving Repr, DecidableEq

/-- The local file system: maps a path to the byte content stored there. -/
abbrev FS := String → Option (List Nat)

/-- The file system with no files. -/
def fsEmpty : FS := fun _ => none

/-- One entry of the conversion service's `tasks` list: a JSON object whose
`hash` and `bitrate` fields may each be absent (`dict.get` returns `None`). -/
structure Variant where
  hash : Option String
  bitrate : Option Int
  deriving Repr, DecidableEq

/-- One entry of the text-search result list.  `videoId` models
`first_result.get("videoId")`; `title` and `albumName` are `none` when the
corresponding dictionary indexing (`first_result["title"]`,
`first_result["album"]["name"]`) would raise. -/
structure SearchResult where
  videoId : Option String
  title : Option String
  albumName : Option String
  deriving Repr, DecidableEq

/-- A service call performed by the pipeline, recorded in order. -/
inductive CallEvent where
  /-- the `search_video` POST (variant discovery) -/
  | variantQuery
  /-- the task-creation POST, carrying the submitted `hash` field -/
  | taskCreate (hash : Option String)
  /-- one status-poll POST to the task endpoint -/
  | poll
  /-- the second, final read of the completed task -/
  | finalRead
  /-- the plain GET fetching the asset bytes -/
  | fetchAsset (url : String)
  deriving Repr, DecidableEq

/-- The external world one pipeline run interacts with.  Each field is the
oracle for one call site; `Except.error` means that call raises. -/
structure Env where
  /-- outcome of `ytmusic.search(query, filter="songs")`: raised exception
  (message) or result list -/
  search : Except String (List SearchResult)
  /-- response to the `search_video` POST: the variant list of its `tasks`
  field (`tasks.get("tasks", [])` of the claims' quantification) -/
  variants : Except PyExn (List Variant)
  /-- response to the task-creation POST for a given submitted hash:
  `response.get("taskId")` -/
  createTask : Option String → Except PyExn (Option String)
  /-- response to the k-th status poll (0-indexed):
  `convert_results.get("status")` -/
  statuses : Nat → Except PyExn (Option String)
  /-- response to the final task read: `download_results.get("download")` -/
  finalRead : Except PyExn (Option String)
  /-- response to the plain GET on the asset URL -/
  fetch : String → HttpResponse

/-- The fixed target bitrate (`BITRATE_192 = 192`). -/
def BITRATE_192 : Int := 192

/-- Embeds `create_conversion_task`: scan the variant list in order; at the
first variant whose `bitrate` field equals the target, POST that variant's
`hash` and return `response.get("taskId")`.  Returns the result together with
the list of submitted hashes (one per task-creation call performed). -/
def create_conversion_task (submit : Option String → Except PyExn (Option String)) :
    List Variant → Int → Except PyExn (Option String) × List (Option String)
  | [], _ => (Except.ok none, [])
  | t :: rest, bitrate =>
    if t.bitrate = some bitrate then (submit t.hash, [t.hash])
    else create_conversion_task submit rest bitrate

/-- Embeds the loop body of `wait_for_conversion_completion`: `done` status
queries have already been performed, `n` loop iterations remain.  Each
iteration performs one poll; a raised poll propagates, a `"finished"` status
returns `true` immediately, anything else continues.  Returns the outcome and
the total number of status queries performed. -/
def waitLoop (statuses : Nat → Except PyExn (Option String)) (done : Nat) :
    Nat → Except PyExn Bool × Nat
  | 0 => (Except.ok false, done)
  | n + 1 =>
    match statuses done with
    | Except.error e => (Except.error e, done + 1)
    | Except.ok st =>
      if st = some "finished" then (Except.ok true, done + 1)
      else waitLoop statuses (done + 1) n

/-- Embeds `wait_for_conversion_completion(task_id, max_retries)`: the Python
loop runs `range(max_retries + 1)` times, i.e. `(max_retries + 1).toNat`
iterations for an arbitrary integer argument. -/
def wait_for_conversion_completion (statuses : Nat → Except PyExn (Option String))
    (max_retries : Int) : Except PyExn Bool × Nat :=
  waitLoop statuses 0 (max_retries + 1).toNat

/-- A status-response sequence in which no poll raises: the k-th response is a
JSON object whose `status` field is `f k` (possibly absent). -/
def pureStatuses (f : Nat → Option String) : Nat → Except PyExn (Option String) :=
  fun k => Except.ok (f k)

/-- Embeds `download_mp3(download_url, filename)`: GET the URL; on status code
exactly 200 write the response body to `filename` and report `True`, otherwise
report `False` and leave the file system untouched. -/
def download_mp3 (fetch : String → HttpResponse) (download_url filename : String)
    (fs : FS) : Bool × FS :=
  if (fetch download_url).status_code = 200 then
    (true, fun f => if f = filename then some (fetch download_url).content else fs f)
  else (false, fs)

/-- Follows the spec's words, for comparison with `download_mp3`: an HTTP
status is a success status when it lies in the 2xx class. -/
def isSuccessStatus (s : Nat) : Bool := decide (200 ≤ s) && decide (s < 300)

/-- Embeds the tail of `download_link` after the poll loop reports completion:
the second, final read of the task, the falsy check on its `download` field
(`None` or the empty string fail), and the byte fetch via `download_mp3`. -/
def finishDownload (env : Env) (fs : FS) (filename : String) :
    Except PyExn Bool × List CallEvent × FS :=
  match env.finalRead with
  | Except.error e => (Except.error e, [CallEvent.finalRead], fs)
  | Except.ok u =>
    if u.getD "" = "" then (Except.ok false, [CallEvent.finalRead], fs)
    else
      (Except.ok (download_mp3 env.fetch (u.getD "") filename fs).1,
       [CallEvent.finalRead, CallEvent.fetchAsset (u.getD "")],
       (download_mp3 env.fetch (u.getD "") filename fs).2)

/-- The task-creation calls performed by `create_conversion_task`, as events. -/
def createCalls (env : Env) (vs : List Variant) : List CallEvent :=
  (create_conversion_task env.createTask vs BITRATE_192).2.map CallEvent.taskCreate

/-- The poll calls performed by `wait_for_conversion_completion`, as events. -/
def pollCalls (env : Env) (mr : Int) : List CallEvent :=
  List.replicate (wait_for_conversion_completion env.statuses mr).2 CallEvent.poll

/-- Embeds `download_link(video_url, filename, max_retries)`: variant
discovery, task creation (falsy task ids — `None` or `""` — fail), the poll
loop, the final task read and the byte fetch.  Raised HTTP errors propagate;
the call trace and the file system are threaded through. -/
def download_link (env : Env) (fs : FS) (filename : String) (mr : Int) :
    Except PyExn Bool × List CallEvent × FS :=
  match env.variants with
  | Except.error e => (Except.error e, [CallEvent.variantQuery], fs)
  | Except.ok vs =>
    match (create_conversion_task env.createTask vs BITRATE_192).1 with
    | Except.error e => (Except.error e, CallEvent.variantQuery :: createCalls env vs, fs)
    | Except.ok tid =>
      if tid.getD "" = "" then
        (Except.ok false, CallEvent.variantQuery :: createCalls env vs, fs)
      else
        match (wait_for_conversion_completion env.statuses mr).1 with
        | Except.error e =>
          (Except.error e,
           CallEvent.variantQuery :: (createCalls env vs ++ pollCalls env mr), fs)
        | Except.ok false =>
          (Except.ok false,
           CallEvent.variantQuery :: (createCalls env vs ++ pollCalls env mr), fs)
        | Except.ok true =>
          ((finishDownload env fs filename).1,
           CallEvent.variantQuery ::
             (createCalls env vs ++ pollCalls env mr ++ (finishDownload env fs filename).2.1),
           (finishDownload env fs filename).2.2)

/-- Embeds `search_and_download(query, filename)`: the text search in a `try`
block (any raised exception is caught and turned into the `False` outcome), the
empty-result check (`False`), the falsy `videoId` check (`None` outcome), the
result-printing block (dictionary indexing of `title` and `album.name` raises
`KeyError` when absent), then `download_link` with the default
`max_retries = 10`. -/
def search_and_download (env : Env) (fs : FS) (query filename : String) :
    Except PyExn (Option Bool) × List CallEvent × FS :=
  match env.search with
  | Except.error _ => (Except.ok (some false), [], fs)
  | Except.ok [] => (Except.ok (some false), [], fs)
  | Except.ok (first :: _) =>
    if first.videoId.getD "" = "" then (Except.ok none, [], fs)
    else
      match first.title with
      | none => (Except.error (PyExn.keyError "title"), [], fs)
      | some _ =>
        match first.albumName with
        | none => (Except.error (PyExn.keyError "album"), [], fs)
        | some _ =>
          ((download_link env fs filename 10).1.map some,
           (download_link env fs filename 10).2.1,
           (download_link env fs filename 10).2.2)

/-- Embeds `DownloadSong.download_track`: build the query from the artist list
and the title, then run `search_and_download`. -/
def download_track (env : Env) (fs : FS) (artists : List String)
    (title filename : String) : Except PyExn (Option Bool) × List CallEvent × FS :=
  search_and_download env fs (String.intercalate " " artists ++ " " ++ title) filename

/-- One track of the album batch: its metadata multimap (key/value pairs, a
key may repeat), the number of already attached files (`len(track.files)`),
and the external world its pipeline run would interact with. -/
structure TrackSpec where
  metadata : List (String × String)
  filesCount : Nat
  env : Env

/-- Embeds `Metadata.getall(key)`: all values stored under `key`, in order. -/
def getall (md : List (String × String)) (key : String) : List String :=
  (md.filter (fun p => p.1 = key)).map Prod.snd

/-- Embeds `key in track.metadata`: key presence in the metadata multimap. -/
def hasKey (md : List (String × String)) (key : String) : Bool :=
  md.any (fun p => p.1 = key)

/-- Embeds the artist-selection branch of `process_album`: `artists` metadata
first, the `artist` metadata as fallback, otherwise the track is skipped. -/
def trackArtists (t : TrackSpec) : Option (List String) :=
  if hasKey t.metadata "artists" then some (getall t.metadata "artists")
  else if hasKey t.metadata "artist" then some (getall t.metadata "artist")
  else none

/-- Embeds `" ".join(track.metadata.getall("title"))`. -/
def trackTitle (t : TrackSpec) : String :=
  String.intercalate " " (getall t.metadata "title")

/-- Embeds `os.path.join(temp_dir, f"{title}.mp3")`. -/
def trackFilename (tempDir : String) (t : TrackSpec) : String :=
  tempDir ++ "/" ++ trackTitle t ++ ".mp3"

/-- A track is processed by the batch driver exactly when an artist list is
derivable and it has zero attached files. -/
def eligible (t : TrackSpec) : Bool :=
  (trackArtists t).isSome && (t.filesCount == 0)

/-- The destination paths of the eligible tracks, in batch order. -/
def eligibleFilenames (tempDir : String) : List TrackSpec → List String
  | [] => []
  | t :: rest =>
    if eligible t then trackFilename tempDir t :: eligibleFilenames tempDir rest
    else eligibleFilenames tempDir rest

/-- The one pipeline run `process_album` performs for an eligible track. -/
def trackStep (tempDir : String) (t : TrackSpec) (artists : List String) (fs : FS) :
    Except PyExn (Option Bool) × List CallEvent × FS :=
  download_track t.env fs artists (trackTitle t) (trackFilename tempDir t)

/-- The outcome of the batch loop: the destination paths of the tracks whose
pipeline was invoked, the paths passed to `track.tagger.add_files`, and the
exception that aborted the loop, if any. -/
structure BatchResult where
  attempted : List String
  attached : List String
  aborted : Option PyExn
  deriving Repr, DecidableEq

/-- Embeds the loop of `DownloadSong.process_album`: per track, derive the
artist list (skip if none), skip tracks with attached files, run the pipeline,
and call `add_files` with the destination path — unconditionally, since the
source ignores the returned success flag.  An exception raised by the pipeline
run propagates: the loop stops and no `add_files` call is made for that
track. -/
def process_tracks (tempDir : String) : List TrackSpec → FS → BatchResult × FS
  | [], fs => (⟨[], [], none⟩, fs)
  | t :: rest, fs =>
    match trackArtists t with
    | none => process_tracks tempDir rest fs
    | some artists =>
      if t.filesCount = 0 then
        match (trackStep tempDir t artists fs).1 with
        | Except.error e =>
          (⟨[trackFilename tempDir t], [], some e⟩, (trackStep tempDir t artists fs).2.2)
        | Except.ok _ =>
          (⟨trackFilename tempDir t ::
              (process_tracks tempDir rest (trackStep tempDir t artists fs).2.2).1.attempted,
            trackFilename tempDir t ::
              (process_tracks tempDir rest (trackStep tempDir t artists fs).2.2).1.attached,
            (process_tracks tempDir rest (trackStep tempDir t artists fs).2.2).1.aborted⟩,
           (process_tracks tempDir rest (trackStep tempDir t artists fs).2.2).2)
      else process_tracks tempDir rest fs

/-- Tags whether an `Except` value is a normal return (no raised exception). -/
def exceptOk {ε α : Type} : Except ε α → Bool
  | Except.ok _ => true
  | Except.error _ => false

/-! ### Lemmas about the polling loop -/

theorem waitLoop_count_le (s : Nat → Except PyExn (Option String)) :
    ∀ (n done : Nat), (waitLoop s done n).2 ≤ done + n := by
  intro n
  induction n with
  | zero => intro done; simp [waitLoop]
  | succ n ih =>
    intro done
    simp only [waitLoop]
    split
    · show done + 1 ≤ done + (n + 1)
      omega
    · split
      · show done + 1 ≤ done + (n + 1)
        omega
      · have := ih (done + 1)
        omega

theorem waitLoop_not_finished (f : Nat → Option String) :
    ∀ (n done : Nat), (∀ k, done ≤ k → k < done + n → f k ≠ some "finished") →
      waitLoop (pureStatuses f) done n = (Except.ok false, done + n) := by
  intro n
  induction n with
  | zero => intro done _; simp [waitLoop]
  | succ n ih =>
    intro done h
    simp only [waitLoop, pureStatuses]
    rw [if_neg (h done le_rfl (by omega))]
    rw [ih (done + 1) (fun k hk1 hk2 => h k (by omega) (by omega))]
    have harith : done + 1 + n = done + (n + 1) := by omega
    rw [harith]

theorem waitLoop_first_finished (f : Nat → Option String) :
    ∀ (n done k : Nat), done ≤ k → k < done + n → f k = some "finished" →
      (∀ j, done ≤ j → j < k → f j ≠ some "finished") →
      waitLoop (pureStatuses f) done n = (Except.ok true, k + 1) := by
  intro n
  induction n with
  | zero => intro done k h1 h2 _ _; exact absurd h2 (by omega)
  | succ n ih =>
    intro done k h1 h2 hk hmin
    simp only [waitLoop, pureStatuses]
    by_cases hdk : k = done
    · subst hdk
      rw [if_pos hk]
    · have hlt : done < k := lt_of_le_of_ne h1 (Ne.symm hdk)
      rw [if_neg (hmin done le_rfl hlt)]
      exact ih (done + 1) k hlt (by omega) hk (fun j hj1 hj2 => hmin j (by omega) hj2)

theorem waitLoop_false_count (f : Nat → Option String) :
    ∀ (n done : Nat), (waitLoop (pureStatuses f) done n).1 = Except.ok false →
      (waitLoop (pureStatuses f) done n).2 = done + n := by
  intro n
  induction n with
  | zero => intro done _; simp [waitLoop]
  | succ n ih =>
    intro done h
    simp only [waitLoop, pureStatuses] at h ⊢
    by_cases hst : f done = some "finished"
    · rw [if_pos hst] at h
      simp at h
    · rw [if_neg hst] at h ⊢
      rw [ih (done + 1) h]
      omega

/-! ### Claim theorems for the poller and the conversion requester -/

/-- C2: for every `maxAttempts ≥ 0` and every status-response sequence, the
poller performs at most `maxAttempts + 1` status queries; it returns the
completed outcome on the first query whose `status` field is `"finished"`,
having then performed exactly that many queries and no more; and when none of
the `maxAttempts + 1` queries reports `"finished"` it returns the timed-out
outcome after exactly `maxAttempts + 1` queries. -/
theorem C2_poller_budget_and_first_finish (f : Nat → Option String) (m : Int)
    (hm : 0 ≤ m) :
    (((m + 1).toNat : Int) = m + 1)
    ∧ (wait_for_conversion_completion (pureStatuses f) m).2 ≤ (m + 1).toNat
    ∧ (∀ k, k < (m + 1).toNat → f k = some "finished" →
        (∀ j, j < k → f j ≠ some "finished") →
        wait_for_conversion_completion (pureStatuses f) m = (Except.ok true, k + 1))
    ∧ ((∀ k, k < (m + 1).toNat → f k ≠ some "finished") →
        wait_for_conversion_completion (pureStatuses f) m
          = (Except.ok false, (m + 1).toNat)) := by
  refine ⟨by omega, ?_, ?_, ?_⟩
  · have h := waitLoop_count_le (pureStatuses f) (m + 1).toNat 0
    simpa [wait_for_conversion_completion] using h
  · intro k hk hfin hmin
    have h := waitLoop_first_finished f (m + 1).toNat 0 k (Nat.zero_le k) (by omega) hfin
      (fun j _ hj => hmin j hj)
    simpa [wait_for_conversion_completion] using h
  · intro h
    have h2 := waitLoop_not_finished f (m + 1).toNat 0 (fun k _ hk => h k (by omega))
    simpa [wait_for_conversion_completion] using h2

/-- A status sequence whose second response reports `"finished"`. -/
def wfcFinishedAtOne : Nat → Option String :=
  fun k => if k = 1 then some "finished" else some "pending"

/-- Witness for C2: with budget `maxAttempts = 3` and `"finished"` first
reported by the second query, the poller returns the completed outcome after
exactly 2 queries. -/
theorem C2_poller_budget_and_first_finish_witness :
    wait_for_conversion_completion (pureStatuses wfcFinishedAtOne) 3
      = (Except.ok true, 2) :=
  (C2_poller_budget_and_first_finish wfcFinishedAtOne 3 (by decide)).2.2.1 1
    (by decide) (by decide) (by decide)

/-- C9: for a negative `maxAttempts` the poller performs zero status queries
and returns the timed-out outcome; in general the number of status queries
performed is at most `max (maxAttempts + 1) 0`, with equality whenever the
timed-out outcome is returned. -/
theorem C9_negative_budget (f : Nat → Option String) (m : Int) :
    (m < 0 → wait_for_conversion_completion (pureStatuses f) m = (Except.ok false, 0))
    ∧ (((wait_for_conversion_completion (pureStatuses f) m).2 : Int) ≤ max (m + 1) 0)
    ∧ ((wait_for_conversion_completion (pureStatuses f) m).1 = Except.ok false →
        ((wait_for_conversion_completion (pureStatuses f) m).2 : Int) = max (m + 1) 0) := by
  refine ⟨?_, ?_, ?_⟩
  · intro hm
    have h0 : (m + 1).toNat = 0 := by omega
    simp [wait_for_conversion_completion, h0, waitLoop]
  · have h := waitLoop_count_le (pureStatuses f) (m + 1).toNat 0
    rw [← Int.toNat_eq_max]
    have h2 : (wait_for_conversion_completion (pureStatuses f) m).2 ≤ (m + 1).toNat := by
      simpa [wait_for_conversion_completion] using h
    exact_mod_cast h2
  · intro h1
    have h2 := waitLoop_false_count f (m + 1).toNat 0
      (by simpa [wait_for_conversion_completion] using h1)
    rw [← Int.toNat_eq_max]
    have h3 : (wait_for_conversion_completion (pureStatuses f) m).2 = (m + 1).toNat := by
      simpa [wait_for_conversion_completion] using h2
    exact_mod_cast h3

/-- A status sequence that never reports `"finished"`. -/
def wfcAllPending : Nat → Option String := fun _ => some "pending"

/-- Witness for C9: with `maxAttempts = -1` the poller performs zero status
queries and returns the timed-out outcome. -/
theorem C9_negative_budget_witness :
    wait_for_conversion_completion (pureStatuses wfcAllPending) (-1)
      = (Except.ok false, 0) :=
  (C9_negative_budget wfcAllPending (-1)).1 (by decide)

/-- C3: when no variant's `bitrate` field equals the target, the scan returns
the no-task outcome (`None`) and the list of task-creation calls performed is
empty. -/
theorem C3_no_matching_variant (submit : Option String → Except PyExn (Option String))
    (tasks : List Variant) (bitrate : Int)
    (h : ∀ t ∈ tasks, t.bitrate ≠ some bitrate) :
    create_conversion_task submit tasks bitrate = (Except.ok none, []) := by
  induction tasks with
  | nil => rfl
  | cons t rest ih =>
    simp only [create_conversion_task]
    rw [if_neg (h t (List.mem_cons_self t rest))]
    exact ih (fun u hu => h u (List.mem_cons_of_mem t hu))

/-- A task-creation oracle that always returns the task id `"tid-1"`. -/
def submitConst : Option String → Except PyExn (Option String) :=
  fun _ => Except.ok (some "tid-1")

/-- Witness for C3: a two-variant list with bitrates 128 and absent, queried
for 192, yields the no-task outcome with zero task-creation calls. -/
theorem C3_no_matching_variant_witness :
    create_conversion_task submitConst
      [⟨some "h1", some 128⟩, ⟨some "h2", none⟩] 192 = (Except.ok none, []) :=
  C3_no_matching_variant submitConst [⟨some "h1", some 128⟩, ⟨some "h2", none⟩] 192
    (by decide)

/-- C6: when the variant list splits as `pre ++ t :: post` with no match in
`pre` and `t` matching the target, the scan submits exactly `t`'s content hash
(one task-creation call, regardless of further matches in `post`) and returns
that call's task id. -/
theorem C6_first_match (submit : Option String → Except PyExn (Option String))
    (pre post : List Variant) (t : Variant) (bitrate : Int)
    (hpre : ∀ u ∈ pre, u.bitrate ≠ some bitrate) (ht : t.bitrate = some bitrate) :
    create_conversion_task submit (pre ++ t :: post) bitrate
      = (submit t.hash, [t.hash]) := by
  induction pre with
  | nil =>
    simp only [List.nil_append, create_conversion_task]
    rw [if_pos ht]
  | cons u pre' ih =>
    simp only [List.cons_append, create_conversion_task]
    rw [if_neg (hpre u (List.mem_cons_self u pre'))]
    exact ih (fun v hv => hpre v (List.mem_cons_of_mem u hv))

/-- Witness for C6: with a non-matching variant first and a second 192-bitrate
match after the selected one, the scan submits exactly the first match's hash
`"h1"`. -/
theorem C6_first_match_witness :
    create_conversion_task submitConst
      ([⟨some "h0", some 128⟩] ++ (⟨some "h1", some 192⟩ : Variant) ::
        [⟨some "h2", some 192⟩]) 192
      = (submitConst (some "h1"), [some "h1"]) :=
  C6_first_match submitConst [⟨some "h0", some 128⟩] [⟨some "h2", some 192⟩]
    ⟨some "h1", some 192⟩ 192 (by decide) (by decide)

/-- A GET oracle answering every URL with status 204 (a success-class status)
and a non-empty body. -/
def fetch204 : String → HttpResponse := fun _ => ⟨204, [1, 2, 3]⟩

/-- C4 counterexample: a 204 response is a success-class HTTP status, yet
`download_mp3` reports failure — so "fails exactly on non-success statuses" is
false of the code, which succeeds only on status 200. -/
theorem C4_counterexample_status204 :
    isSuccessStatus (fetch204 "http://x/f.mp3").status_code = true
    ∧ (download_mp3 fetch204 "http://x/f.mp3" "/tmp/f.mp3" fsEmpty).1 = false := by
  exact ⟨rfl, rfl⟩

/-- C4 (amended): `download_mp3` fails exactly when the fetched status code
differs from 200; on status 200 it reports success, writes byte-for-byte the
fetched content at the destination path, and changes no other path. -/
theorem C4_amended_status200 (fetch : String → HttpResponse) (url filename : String)
    (fs : FS) :
    ((download_mp3 fetch url filename fs).1 = false ↔ (fetch url).status_code ≠ 200)
    ∧ ((fetch url).status_code = 200 →
        (download_mp3 fetch url filename fs).1 = true
        ∧ (download_mp3 fetch url filename fs).2 filename = some (fetch url).content
        ∧ ∀ g, g ≠ filename → (download_mp3 fetch url filename fs).2 g = fs g) := by
  constructor
  · by_cases h : (fetch url).status_code = 200
    · simp [download_mp3, h]
    · simp [download_mp3, h]
  · intro h
    refine ⟨?_, ?_, ?_⟩
    · simp [download_mp3, h]
    · simp [download_mp3, h]
    · intro g hg
      simp [download_mp3, h, hg]

/-- A GET oracle answering every URL with status 200 and body `[7, 8]`. -/
def fetch200 : String → HttpResponse := fun _ => ⟨200, [7, 8]⟩

/-! ### The pipeline's outcome and call trace do not depend on the prior
file-system state (only the written file does) -/

theorem download_mp3_fst_const (fetch : String → HttpResponse) (url fn : String)
    (fs fs' : FS) :
    (download_mp3 fetch url fn fs).1 = (download_mp3 fetch url fn fs').1 := by
  by_cases h : (fetch url).status_code = 200 <;> simp [download_mp3, h]

theorem finishDownload_fst_const (env : Env) (fn : String) (fs fs' : FS) :
    (finishDownload env fs fn).1 = (finishDownload env fs' fn).1
    ∧ (finishDownload env fs fn).2.1 = (finishDownload env fs' fn).2.1 := by
  cases hu : env.finalRead with
  | error e => simp [finishDownload, hu]
  | ok u =>
    by_cases h : u.getD "" = ""
    · simp [finishDownload, hu, h]
    · simp [finishDownload, hu, h, download_mp3_fst_const env.fetch (u.getD "") fn fs fs']

theorem download_link_fst_const (env : Env) (fn : String) (mr : Int) (fs fs' : FS) :
    (download_link env fs fn mr).1 = (download_link env fs' fn mr).1 := by
  cases hv : env.variants with
  | error e => simp [download_link, hv]
  | ok vs =>
    cases hc : (create_conversion_task env.createTask vs BITRATE_192).1 with
    | error e => simp [download_link, hv, hc]
    | ok tid =>
      by_cases h : tid.getD "" = ""
      · simp [download_link, hv, hc, h]
      · cases hw : (wait_for_conversion_completion env.statuses mr).1 with
        | error e => simp [download_link, hv, hc, h, hw]
        | ok b =>
          cases b
          · simp [download_link, hv, hc, h, hw]
          · simp [download_link, hv, hc, h, hw, (finishDownload_fst_const env fn fs fs').1]

theorem search_and_download_fst_const (env : Env) (q fn : String) (fs fs' : FS) :
    (search_and_download env fs q fn).1 = (search_and_download env fs' q fn).1 := by
  cases hs : env.search with
  | error e => simp [search_and_download, hs]
  | ok res =>
    cases res with
    | nil => simp [search_and_download, hs]
    | cons first rest =>
      by_cases hv : first.videoId.getD "" = ""
      · simp [search_and_download, hs, hv]
      · cases ht : first.title with
        | none => simp [search_and_download, hs, hv, ht]
        | some ttl =>
          cases ha : first.albumName with
          | none => simp [search_and_download, hs, hv, ht, ha]
          | some al =>
            simp [search_and_download, hs, hv, ht, ha,
              download_link_fst_const env fn 10 fs fs']

theorem trackStep_fst_const (tempDir : String) (t : TrackSpec) (artists : List String)
    (fs fs' : FS) :
    (trackStep tempDir t artists fs).1 = (trackStep tempDir t artists fs').1 :=
  search_and_download_fst_const t.env
    (String.intercalate " " artists ++ " " ++ trackTitle t) (trackFilename tempDir t) fs fs'

/-! ### Claim theorems for the resolver and the asset fetch -/

/-- C5: when the text search returns an empty result list, the pipeline
reports the not-found outcome (`False`), performs no conversion-service call
of any kind (empty call trace), and leaves the file system untouched. -/
theorem C5_empty_search_results (env : Env) (fs : FS) (query filename : String)
    (h : env.search = Except.ok []) :
    search_and_download env fs query filename = (Except.ok (some false), [], fs) := by
  simp [search_and_download, h]

/-- An environment whose text search returns no results. -/
def envEmptySearch : Env :=
  { search := Except.ok []
    variants := Except.ok []
    createTask := submitConst
    statuses := pureStatuses wfcAllPending
    finalRead := Except.ok none
    fetch := fetch204 }

/-- Witness for C5: a concrete empty-search environment yields the `False`
outcome with an empty call trace. -/
theorem C5_empty_search_results_witness :
    search_and_download envEmptySearch fsEmpty "artist song" "/tmp/s.mp3"
      = (Except.ok (some false), [], fsEmpty) :=
  C5_empty_search_results envEmptySearch fsEmpty "artist song" "/tmp/s.mp3" rfl

/-- C7: when the text-search call raises, `search_and_download` catches the
exception and reports the tagged `False` outcome — the raw exception does not
propagate to the caller (the result is a normal return, not an error). -/
theorem C7_search_exception_caught (env : Env) (fs : FS) (query filename : String)
    (msg : String) (h : env.search = Except.error msg) :
    search_and_download env fs query filename = (Except.ok (some false), [], fs) := by
  simp [search_and_download, h]

/-- An environment whose text-search call raises. -/
def envRaisingSearch : Env :=
  { envEmptySearch with search := Except.error "connection reset" }

/-- Witness for C7: a concrete raising-search environment yields the tagged
`False` outcome. -/
theorem C7_search_exception_caught_witness :
    search_and_download envRaisingSearch fsEmpty "a b" "/tmp/s.mp3"
      = (Except.ok (some false), [], fsEmpty) :=
  C7_search_exception_caught envRaisingSearch fsEmpty "a b" "/tmp/s.mp3"
    "connection reset" rfl

/-- C8: when the pipeline reaches the final task read and that read carries no
download URL (absent field or empty string), `download_link` reports the
`False` outcome, performs no byte-fetch call, and leaves the file system
untouched. -/
theorem C8_missing_asset_url (env : Env) (fs : FS) (filename : String) (mr : Int)
    (vs : List Variant) (tid : Option String)
    (hv : env.variants = Except.ok vs)
    (hc : (create_conversion_task env.createTask vs BITRATE_192).1 = Except.ok tid)
    (htid : tid.getD "" ≠ "")
    (hw : (wait_for_conversion_completion env.statuses mr).1 = Except.ok true)
    (hu : env.finalRead = Except.ok none ∨ env.finalRead = Except.ok (some "")) :
    (download_link env fs filename mr).1 = Except.ok false
    ∧ (∀ url, CallEvent.fetchAsset url ∉ (download_link env fs filename mr).2.1)
    ∧ (download_link env fs filename mr).2.2 = fs := by
  have hfin : finishDownload env fs filename = (Except.ok false, [CallEvent.finalRead], fs) := by
    rcases hu with hu | hu <;> simp [finishDownload, hu]
  refine ⟨?_, ?_, ?_⟩
  · simp [download_link, hv, hc, htid, hw, hfin]
  · intro url
    simp [download_link, hv, hc, htid, hw, hfin, createCalls, pollCalls,
      List.mem_append, List.mem_replicate]
  · simp [download_link, hv, hc, htid, hw, hfin]

/-- A status sequence reporting `"finished"` immediately. -/
def wfcAllFinished : Nat → Option String := fun _ => some "finished"

/-- An environment whose task completes but whose final read has no
`download` field. -/
def envMissingUrl : Env :=
  { search := Except.ok [⟨some "vid", some "T", some "A"⟩]
    variants := Except.ok [⟨some "h1", some 192⟩]
    createTask := submitConst
    statuses := pureStatuses wfcAllFinished
    finalRead := Except.ok none
    fetch := fetch204 }

/-- Witness for C8: in the concrete missing-URL environment the pipeline
reports `False`, fetches no bytes, and writes nothing. -/
theorem C8_missing_asset_url_witness :
    (download_link envMissingUrl fsEmpty "/tmp/x.mp3" 0).1 = Except.ok false
    ∧ (∀ url, CallEvent.fetchAsset url ∉ (download_link envMissingUrl fsEmpty "/tmp/x.mp3" 0).2.1)
    ∧ (download_link envMissingUrl fsEmpty "/tmp/x.mp3" 0).2.2 = fsEmpty :=
  C8_missing_asset_url envMissingUrl fsEmpty "/tmp/x.mp3" 0 [⟨some "h1", some 192⟩]
    (some "tid-1") rfl rfl (by decide) rfl (Or.inl rfl)

/-- Witness for the amended C4: a 200 response is written byte-for-byte to the
destination path and success is reported. -/
theorem C4_amended_status200_witness :
    (download_mp3 fetch200 "u" "/tmp/a.mp3" fsEmpty).1 = true
    ∧ (download_mp3 fetch200 "u" "/tmp/a.mp3" fsEmpty).2 "/tmp/a.mp3" = some [7, 8] :=
  ⟨((C4_amended_status200 fetch200 "u" "/tmp/a.mp3" fsEmpty).2 rfl).1,
   ((C4_amended_status200 fetch200 "u" "/tmp/a.mp3" fsEmpty).2 rfl).2.1⟩

/-! ### Claim theorems for the batch driver -/

/-- An environment whose variant-discovery JSON call raises an HTTP 500
error (`response.raise_for_status()`). -/
def envHttp500 : Env :=
  { search := Except.ok [⟨some "vid1", some "T1", some "A1"⟩]
    variants := Except.error (PyExn.httpError 500)
    createTask := submitConst
    statuses := pureStatuses wfcAllPending
    finalRead := Except.ok none
    fetch := fetch204 }

/-- A track whose pipeline run hits the HTTP 500 error. -/
def trackHttp500 : TrackSpec :=
  { metadata := [("artist", "Artist A"), ("title", "T1")]
    filesCount := 0
    env := envHttp500 }

/-- An eligible track placed after the failing one in the batch. -/
def trackAfter : TrackSpec :=
  { metadata := [("artist", "Artist B"), ("title", "T2")]
    filesCount := 0
    env := envEmptySearch }

/-- C1 counterexample: an HTTP failure raised by a JSON call inside the first
track's pipeline is not caught at the batch-driver boundary — the exception
propagates, aborting the batch, and the second (eligible) track is never
attempted and never has a file attached. -/
theorem C1_counterexample_http_aborts_batch :
    eligible trackAfter = true
    ∧ (process_tracks "/tmp" [trackHttp500, trackAfter] fsEmpty).1.aborted
        = some (PyExn.httpError 500)
    ∧ (process_tracks "/tmp" [trackHttp500, trackAfter] fsEmpty).1.attempted
        = ["/tmp/T1.mp3"]
    ∧ trackFilename "/tmp" trackAfter
        ∉ (process_tracks "/tmp" [trackHttp500, trackAfter] fsEmpty).1.attempted
    ∧ (process_tracks "/tmp" [trackHttp500, trackAfter] fsEmpty).1.attached = [] := by
  refine ⟨by decide, by decide, by decide, by decide, by decide⟩

/-- C1 (amended): failures that the per-track pipeline reports as tagged
outcomes — which include exceptions raised by the text-search call, caught
inside `search_and_download` — never prevent subsequent tracks from being
attempted: when every eligible track's pipeline run returns without raising,
the batch driver attempts every eligible track, attaches every eligible
track's destination path, and does not abort.  (Raw HTTP failures raised by
the JSON calls are not caught at the batch-driver boundary; see the
counterexample.) -/
theorem C1_amended_tagged_outcomes (tempDir : String) (tracks : List TrackSpec)
    (fs : FS)
    (h : ∀ t ∈ tracks, eligible t = true →
      exceptOk (trackStep tempDir t ((trackArtists t).getD []) fsEmpty).1 = true) :
    (process_tracks tempDir tracks fs).1.attempted = eligibleFilenames tempDir tracks
    ∧ (process_tracks tempDir tracks fs).1.attached = eligibleFilenames tempDir tracks
    ∧ (process_tracks tempDir tracks fs).1.aborted = none := by
  induction tracks generalizing fs with
  | nil => exact ⟨rfl, rfl, rfl⟩
  | cons t rest ih =>
    have hrest : ∀ u ∈ rest, eligible u = true →
        exceptOk (trackStep tempDir u ((trackArtists u).getD []) fsEmpty).1 = true :=
      fun u hu => h u (List.mem_cons_of_mem t hu)
    cases ha : trackArtists t with
    | none =>
      have he : eligible t = false := by simp [eligible, ha]
      obtain ⟨h1, h2, h3⟩ := ih fs hrest
      refine ⟨?_, ?_, ?_⟩ <;> simp [process_tracks, ha, eligibleFilenames, he, h1, h2, h3]
    | some artists =>
      by_cases hf : t.filesCount = 0
      · have he : eligible t = true := by simp [eligible, ha, hf]
        have hstep := h t (List.mem_cons_self t rest) he
        rw [ha] at hstep
        have hfs : exceptOk (trackStep tempDir t artists fs).1 = true := by
          rw [trackStep_fst_const tempDir t artists fs fsEmpty]
          exact hstep
        cases hok : (trackStep tempDir t artists fs).1 with
        | error e => rw [hok] at hfs; simp [exceptOk] at hfs
        | ok b =>
          obtain ⟨h1, h2, h3⟩ := ih (trackStep tempDir t artists fs).2.2 hrest
          refine ⟨?_, ?_, ?_⟩ <;>
            simp [process_tracks, ha, hf, hok, eligibleFilenames, he, h1, h2, h3]
      · have he : eligible t = false := by simp [eligible, hf]
        obtain ⟨h1, h2, h3⟩ := ih fs hrest
        refine ⟨?_, ?_, ?_⟩ <;>
          simp [process_tracks, ha, hf, eligibleFilenames, he, h1, h2, h3]

/-- A track whose pipeline run reports the tagged not-found failure. -/
def trackNotFound : TrackSpec :=
  { metadata := [("artist", "Artist A"), ("title", "T1")]
    filesCount := 0
    env := envEmptySearch }

/-- Witness for the amended C1: a batch of two eligible tracks whose pipelines
both report tagged failures is driven to completion — both tracks attempted,
both destination paths attached, no abort. -/
theorem C1_amended_tagged_outcomes_witness :
    (process_tracks "/tmp" [trackNotFound, trackAfter] fsEmpty).1.attempted
        = eligibleFilenames "/tmp" [trackNotFound, trackAfter]
    ∧ (process_tracks "/tmp" [trackNotFound, trackAfter] fsEmpty).1.attached
        = eligibleFilenames "/tmp" [trackNotFound, trackAfter]
    ∧ (process_tracks "/tmp" [trackNotFound, trackAfter] fsEmpty).1.aborted = none :=
  C1_amended_tagged_outcomes "/tmp" [trackNotFound, trackAfter] fsEmpty (by decide)

/-- C10: for every track the batch driver processes (derivable artist list,
zero attached files), whenever the pipeline run returns a tagged outcome —
success or failure alike — the destination path is passed to `add_files`,
because the source ignores the returned flag. -/
theorem C10_attach_regardless_of_outcome (tempDir : String) (t : TrackSpec)
    (rest : List TrackSpec) (fs : FS) (b : Option Bool)
    (he : eligible t = true)
    (hr : (trackStep tempDir t ((trackArtists t).getD []) fs).1 = Except.ok b) :
    trackFilename tempDir t ∈ (process_tracks tempDir (t :: rest) fs).1.attached := by
  obtain ⟨ha, hf⟩ : (trackArtists t).isSome = true ∧ (t.filesCount == 0) = true := by
    simpa [eligible, Bool.and_eq_true] using he
  obtain ⟨artists, ha'⟩ := Option.isSome_iff_exists.mp ha
  rw [ha'] at hr
  simp only [Option.getD_some] at hr
  have hf' : t.filesCount = 0 := by simpa using hf
  simp [process_tracks, ha', hf', hr]

/-- Witness for C10: a track whose pipeline reports the tagged not-found
failure still has its destination path attached. -/
theorem C10_attach_regardless_of_outcome_witness :
    trackFilename "/tmp" trackNotFound
      ∈ (process_tracks "/tmp" [trackNotFound] fsEmpty).1.attached :=
  C10_attach_regardless_of_outcome "/tmp" trackNotFound [] fsEmpty (some false)
    (by decide) rfl

end YTDL
